import Mathlib

/-!
Shallow embedding of the nuclear liquid-drop-model calculator
(`src/elements/mod.rs`): the element catalog lookup, the `Isotope`
type with its constructors and transforms, and the binding-energy,
mass and binding-energy-per-nucleon computations.

Modelling conventions:
- Rust `f64` arithmetic is modelled over `ℝ`, with `f64::powf` as
  `Real.rpow`.  Rust `i32` is modelled as `ℤ` (all claim-relevant
  values are tiny, far from overflow).
- The elements file is ambient state in the Rust code
  (`File::open(elements_path)` plus `BufReader::lines`); it is made an
  explicit parameter `fs : Option (List String)` where `none` means the
  open/read failed with an I/O error and `some rows` means the file was
  read as the list of its lines.
- `Isotope::from_nucleons` runs `todo!()` (an unconditional panic) when
  the catalog lookup fails; the panic is modelled as `Option.none`.
- Rust's truncated `%` on `i32` and Lean's `Int.emod` agree on the only
  tests the code performs (`z % 2 == 0` and `z % 2 != 0`), since both
  remainders are zero exactly on even inputs.
-/

/-- Error kinds produced by `get_element_from_protons`
(`std::io::Error` values in the Rust code, distinguished here by the
three distinct failure sites). -/
inductive CatalogError where
  /-- "Proton Number out of Range 1-118" -/
  | outOfRange
  /-- a `File::open` / `lines()` failure propagated with `?` -/
  | ioError
  /-- "Malformed 'elements.txt' file (should be 118 lines)" -/
  | malformed
deriving DecidableEq, Repr

/-- Rust's `line.split(',')` as used by the lookup: split a line at every
comma; a line with no comma yields one field, the empty line yields one
empty field. -/
def splitComma (line : String) : List String :=
  (line.toList.splitOn ',').map List.asString

-- ---------------------------- nucleons constants ---------------------

noncomputable def m_electron : ℝ := 0.511
noncomputable def m_proton : ℝ := 938.280
noncomputable def m_neutron : ℝ := 939.573
noncomputable def amu : ℝ := 931.5

-- ---------------------------- liquid drop model constants ------------

noncomputable def A_V : ℝ := 15.5
noncomputable def A_S : ℝ := 16.8
noncomputable def A_C : ℝ := 0.72
noncomputable def A_A : ℝ := 23.0
noncomputable def A_P : ℝ := 34.0

/-- `get_element_from_protons` from `src/elements/mod.rs`: range-check
the proton number, read the elements file, check it has at least 118
lines, then split line `num_protons - 1` at commas into name and symbol
(missing fields default to `""`). -/
def get_element_from_protons (fs : Option (List String)) (num_protons : ℤ) :
    Except CatalogError (String × String) :=
  if num_protons < 1 ∨ 118 < num_protons then
    .error .outOfRange
  else
    match fs with
    | none => .error .ioError
    | some collection =>
      if collection.length < 118 then
        .error .malformed
      else
        let line := collection.getD (num_protons - 1).toNat ""
        let element := (splitComma line).getD 0 ""
        let symbol := (splitComma line).getD 1 ""
        .ok (element, symbol)

/-- The `Isotope` struct: element name, chemical symbol, mass number
`A`, proton number `Z`, neutron number `N`. -/
structure Isotope where
  element : String
  symbol : String
  A : ℤ
  Z : ℤ
  N : ℤ
deriving DecidableEq, Repr

/-- `Isotope::from_nucleons`: look the element up by `Z`; on lookup
failure the Rust code runs `todo!()` and panics (modelled `none`);
otherwise build the isotope with `N = A - Z` (no further validation). -/
def from_nucleons (fs : Option (List String)) (A Z : ℤ) : Option Isotope :=
  match get_element_from_protons fs Z with
  | .error _ => none
  | .ok (element, symbol) => some { element, symbol, A, Z, N := A - Z }

/-- `Isotope::get_upper_isobar`: `from_nucleons(self.A, self.Z + 1)`. -/
def get_upper_isobar (fs : Option (List String)) (self : Isotope) : Option Isotope :=
  from_nucleons fs self.A (self.Z + 1)

-- the five let-bound terms of `Isotope::binding_energy`

/-- `volume = A_V * A_f64` -/
noncomputable def volume_term (A : ℤ) : ℝ := A_V * (A : ℝ)

/-- `surface = -1.0 * A_S * A_f64.powf(2.0 / 3.0)` -/
noncomputable def surface_term (A : ℤ) : ℝ := -1.0 * A_S * Real.rpow (A : ℝ) (2 / 3)

/-- `coulomb = -1.0 * A_C * Z_f64.powf(2.0) * A_f64.powf(-1.0 / 3.0)` -/
noncomputable def coulomb_term (A Z : ℤ) : ℝ :=
  -1.0 * A_C * Real.rpow (Z : ℝ) 2 * Real.rpow (A : ℝ) (-1 / 3)

/-- `asymetry = -1.0 * A_A * (N_f64 - Z_f64).powf(2.0)/A_f64` -/
noncomputable def asymmetry_term (A Z N : ℤ) : ℝ :=
  -1.0 * A_A * Real.rpow ((N : ℝ) - (Z : ℝ)) 2 / (A : ℝ)

/-- `delta = A_P * A_f64.powf(-3.0 / 4.0)` -/
noncomputable def delta_term (A : ℤ) : ℝ := A_P * Real.rpow (A : ℝ) (-3 / 4)

/-- The parity-selected pairing term of `Isotope::binding_energy`:
even Z / even N gives `delta`, odd Z / even N gives `0.0`,
odd Z / odd N gives `-1.0 * delta`, and the remaining case
(even Z / odd N, "not a common case") gives `0.0`. -/
noncomputable def pairing_term (A Z N : ℤ) : ℝ :=
  if Z % 2 = 0 ∧ N % 2 = 0 then delta_term A
  else if Z % 2 ≠ 0 ∧ N % 2 = 0 then 0.0
  else if Z % 2 ≠ 0 ∧ N % 2 ≠ 0 then -1.0 * delta_term A
  else 0.0

/-- `Isotope::binding_energy`: the Bethe–Weizsäcker semi-empirical
mass formula, `volume + surface + coulomb + asymetry + pairing`. -/
noncomputable def binding_energy (self : Isotope) : ℝ :=
  volume_term self.A + surface_term self.A + coulomb_term self.A self.Z +
    asymmetry_term self.A self.Z self.N + pairing_term self.A self.Z self.N

/-- `Isotope::mass`: `Z * m_proton + N * m_neutron - binding_energy()`,
in MeV/c^2 (the division by `amu` happens only in `report`, for
display). -/
noncomputable def mass (self : Isotope) : ℝ :=
  (self.Z : ℝ) * m_proton + (self.N : ℝ) * m_neutron - binding_energy self

/-- `Isotope::binding_energy_per_nucleon`: `binding_energy() / A`. -/
noncomputable def binding_energy_per_nucleon (self : Isotope) : ℝ :=
  binding_energy self / (self.A : ℝ)

/-- A concrete well-formed 118-row elements table used to evaluate the
model on concrete inputs. -/
def exampleTable : List String := List.replicate 118 "El,Sy"

/-- The table well-formedness the spec assumes for successful lookups:
every row has a non-empty name field and a non-empty symbol field. -/
def wellFormedTable (rows : List String) : Prop :=
  ∀ r ∈ rows, (splitComma r).getD 0 "" ≠ "" ∧ (splitComma r).getD 1 "" ≠ ""

instance (rows : List String) : Decidable (wellFormedTable rows) :=
  List.decidableBAll _ rows

/-- The binding-energy formula exactly as the claim words it: five
liquid-drop terms with literal coefficients, integer squaring, real
power evaluation, and the pairing case table. -/
noncomputable def bindingEnergy_claim (A Z N : ℤ) : ℝ :=
  15.5 * (A : ℝ)
    + (-16.8 * Real.rpow (A : ℝ) (2 / 3))
    + (-0.72 * (Z : ℝ) ^ 2 * Real.rpow (A : ℝ) (-1 / 3))
    + (-23.0 * ((N : ℝ) - (Z : ℝ)) ^ 2 / (A : ℝ))
    + (if Even Z ∧ Even N then 34.0 * Real.rpow (A : ℝ) (-3 / 4)
       else if Odd Z ∧ Odd N then -(34.0 * Real.rpow (A : ℝ) (-3 / 4))
       else 0)

lemma get_element_ok_range (fs : Option (List String)) (Z : ℤ)
    (p : String × String) (h : get_element_from_protons fs Z = .ok p) :
    1 ≤ Z ∧ Z ≤ 118 := by
  by_contra hr
  unfold get_element_from_protons at h
  rw [if_pos (by omega)] at h
  simp at h

lemma get_element_ok_fields (rows : List String) (Z : ℤ) (e s : String)
    (h : get_element_from_protons (some rows) Z = .ok (e, s)) :
    e = (splitComma (rows.getD (Z - 1).toNat "")).getD 0 "" ∧
    s = (splitComma (rows.getD (Z - 1).toNat "")).getD 1 "" := by
  unfold get_element_from_protons at h
  by_cases hr : Z < 1 ∨ 118 < Z
  · rw [if_pos hr] at h
    simp at h
  · rw [if_neg hr] at h
    by_cases hl : rows.length < 118
    · simp only [if_pos hl] at h
      simp at h
    · simp only [if_neg hl] at h
      simp only [Except.ok.injEq, Prod.mk.injEq] at h
      exact ⟨h.1.symm, h.2.symm⟩

/-- C2: refuted by the code — `binding_energy` has no `A ≤ 0` guard and
no DomainError path exists anywhere (the function returns a plain `f64`
and `from_nucleons` validates nothing), so an invalid `A` reaches the
formula's divisions and exponentiations: `from_nucleons(0, 1)` succeeds
and hands `A = 0` straight to the formula, whose asymmetry term then
divides by zero (yielding a non-finite float in Rust, not an error). -/
theorem from_nucleons_accepts_nonpositive_A :
    from_nucleons (some exampleTable) 0 1 = some ⟨"El", "Sy", 0, 1, -1⟩ := by
  decide

/-- C3: refuted by the code — `from_nucleons(3, 5)` with `A < Z` does
not fail with any error: it silently returns an Isotope whose neutron
count is `N = A - Z = -2`. -/
theorem from_nucleons_accepts_negative_N :
    from_nucleons (some exampleTable) 3 5 = some ⟨"El", "Sy", 3, 5, -2⟩ := by
  decide

/-- C4: refuted by the code — when the catalog lookup fails (here with
OutOfRange at `Z = 119`), `from_nucleons` does not return the failure
to its caller: it hits the unconditional `todo!()` panic (modelled as
`none`), aborting instead of propagating. -/
theorem from_nucleons_aborts_on_lookup_failure :
    get_element_from_protons (some exampleTable) 119 = .error .outOfRange ∧
    from_nucleons (some exampleTable) 10 119 = none := by
  exact ⟨rfl, by decide⟩

/-- C7 counterexample: `from_nucleons(2, 4)` returns an Isotope whose
neutron count is negative, so the claimed invariant `N ≥ 0` (and with
input `A = 0` likewise `A > 0`) does not hold for every constructed
Isotope. -/
theorem constructed_isotope_invariant_cex :
    from_nucleons (some exampleTable) 2 4 = some ⟨"El", "Sy", 2, 4, -2⟩ ∧
    ¬(0 ≤ (⟨"El", "Sy", 2, 4, -2⟩ : Isotope).N) := by
  exact ⟨by decide, by decide⟩

/-- C6: `mass` is `Z * m_proton + N * m_neutron - binding_energy()`
with the fixed constants 938.280 and 939.573 MeV/c², and the stored
value is not divided by the `amu` conversion factor (that division
happens only in `report`, for display). -/
theorem mass_eq_claim_formula (iso : Isotope) :
    mass iso = (iso.Z : ℝ) * 938.280 + (iso.N : ℝ) * 939.573 - binding_energy iso := by
  simp only [mass, m_proton, m_neutron]

/-- C1: `binding_energy` equals the sum of the five liquid-drop terms
exactly as the claim states them — volume `15.5*A`, surface
`-16.8*A^(2/3)`, coulomb `-0.72*Z^2*A^(-1/3)`, asymmetry
`-23.0*(N-Z)^2/A`, and the parity-selected pairing term
`+34.0*A^(-3/4)` (even/even), `-34.0*A^(-3/4)` (odd/odd), `0`
otherwise — with the integer fields promoted to reals and real power
evaluation. -/
theorem binding_energy_eq_claim_formula (iso : Isotope) :
    binding_energy iso = bindingEnergy_claim iso.A iso.Z iso.N := by
  obtain ⟨e, s, A, Z, N⟩ := iso
  have hsq : ∀ x : ℝ, Real.rpow x 2 = x ^ 2 := fun x => Real.rpow_two x
  simp only [binding_energy, bindingEnergy_claim, volume_term, surface_term,
    coulomb_term, asymmetry_term, pairing_term, delta_term,
    A_V, A_S, A_C, A_A, A_P, hsq]
  rcases Int.even_or_odd Z with hZ | hZ <;> rcases Int.even_or_odd N with hN | hN
  · simp [Int.even_iff.mp hZ, Int.even_iff.mp hN, Int.even_iff, Int.odd_iff]
    ring
  · simp [Int.even_iff.mp hZ, Int.odd_iff.mp hN, Int.even_iff, Int.odd_iff]
    ring
  · simp [Int.odd_iff.mp hZ, Int.even_iff.mp hN, Int.even_iff, Int.odd_iff]
    ring
  · simp [Int.odd_iff.mp hZ, Int.odd_iff.mp hN, Int.even_iff, Int.odd_iff]
    ring

/-- C9: for equal mass number `A > 0`, the pairing contribution of an
odd-Z/odd-N isotope is the exact negation of that of an even-Z/even-N
isotope: `-34.0 * A^(-3/4)` versus `+34.0 * A^(-3/4)`. -/
theorem pairing_odd_odd_neg_of_even_even (iso₁ iso₂ : Isotope)
    (hA : iso₁.A = iso₂.A) (_hApos : 0 < iso₁.A)
    (hZ₁ : Odd iso₁.Z) (hN₁ : Odd iso₁.N) (hZ₂ : Even iso₂.Z) (hN₂ : Even iso₂.N) :
    pairing_term iso₁.A iso₁.Z iso₁.N = -(pairing_term iso₂.A iso₂.Z iso₂.N) ∧
    pairing_term iso₁.A iso₁.Z iso₁.N = -(34.0 * Real.rpow ((iso₁.A : ℤ) : ℝ) (-3 / 4)) ∧
    pairing_term iso₂.A iso₂.Z iso₂.N = 34.0 * Real.rpow ((iso₂.A : ℤ) : ℝ) (-3 / 4) := by
  have h1 := Int.odd_iff.mp hZ₁
  have h2 := Int.odd_iff.mp hN₁
  have h3 := Int.even_iff.mp hZ₂
  have h4 := Int.even_iff.mp hN₂
  refine ⟨?_, ?_, ?_⟩ <;>
    simp [pairing_term, delta_term, A_P, h1, h2, h3, h4, hA] <;> ring

/-- C9 witness: the theorem applied at `A = 4`, odd pair `(3, 3)`,
even pair `(2, 2)`. -/
theorem pairing_odd_odd_neg_of_even_even_witness :
    (⟨"El", "Sy", 4, 3, 3⟩ : Isotope).A = (⟨"El", "Sy", 4, 2, 2⟩ : Isotope).A ∧
    (0 : ℤ) < 4 ∧ Odd (3 : ℤ) ∧ Even (2 : ℤ) ∧
    (pairing_term 4 3 3 = -(pairing_term 4 2 2) ∧
     pairing_term 4 3 3 = -(34.0 * Real.rpow ((4 : ℤ) : ℝ) (-3 / 4)) ∧
     pairing_term 4 2 2 = 34.0 * Real.rpow ((4 : ℤ) : ℝ) (-3 / 4)) :=
  ⟨rfl, by decide, by decide, by decide,
   pairing_odd_odd_neg_of_even_even ⟨"El", "Sy", 4, 3, 3⟩ ⟨"El", "Sy", 4, 2, 2⟩ rfl
     (by decide) (by decide) (by decide) (by decide) (by decide)⟩

/-- C5: the lookup fails with OutOfRange exactly when `Z < 1` or
`Z > 118` (regardless of the state of the elements file), and for every
`Z` in `[1, 118]` with a well-formed 118-row table it returns the
non-empty name and symbol fields of the table row at index `Z - 1`. -/
theorem lookup_out_of_range_iff (fs : Option (List String)) (Z : ℤ) :
    (get_element_from_protons fs Z = .error .outOfRange ↔ (Z < 1 ∨ 118 < Z)) ∧
    (∀ rows, fs = some rows → rows.length = 118 → wellFormedTable rows →
      1 ≤ Z → Z ≤ 118 →
      get_element_from_protons fs Z =
        .ok ((splitComma (rows.getD (Z - 1).toNat "")).getD 0 "",
             (splitComma (rows.getD (Z - 1).toNat "")).getD 1 "") ∧
      (splitComma (rows.getD (Z - 1).toNat "")).getD 0 "" ≠ "" ∧
      (splitComma (rows.getD (Z - 1).toNat "")).getD 1 "" ≠ "") := by
  constructor
  · constructor
    · intro h
      by_contra hr
      push_neg at hr
      unfold get_element_from_protons at h
      rw [if_neg (by omega)] at h
      rcases fs with _ | rows
      · simp at h
      · by_cases hl : rows.length < 118
        · rw [show (match some rows with
              | none => (Except.error CatalogError.ioError :
                  Except CatalogError (String × String))
              | some collection =>
                if collection.length < 118 then .error .malformed
                else
                  .ok ((splitComma (collection.getD (Z - 1).toNat "")).getD 0 "",
                       (splitComma (collection.getD (Z - 1).toNat "")).getD 1 "")) =
              (if rows.length < 118 then (.error .malformed :
                  Except CatalogError (String × String))
                else
                  .ok ((splitComma (rows.getD (Z - 1).toNat "")).getD 0 "",
                       (splitComma (rows.getD (Z - 1).toNat "")).getD 1 "")) from rfl,
            if_pos hl] at h
          simp at h
        · rw [show (match some rows with
              | none => (Except.error CatalogError.ioError :
                  Except CatalogError (String × String))
              | some collection =>
                if collection.length < 118 then .error .malformed
                else
                  .ok ((splitComma (collection.getD (Z - 1).toNat "")).getD 0 "",
                       (splitComma (collection.getD (Z - 1).toNat "")).getD 1 "")) =
              (if rows.length < 118 then (.error .malformed :
                  Except CatalogError (String × String))
                else
                  .ok ((splitComma (rows.getD (Z - 1).toNat "")).getD 0 "",
                       (splitComma (rows.getD (Z - 1).toNat "")).getD 1 "")) from rfl,
            if_neg hl] at h
          simp at h
    · intro h
      unfold get_element_from_protons
      rw [if_pos h]
  · intro rows hfs hlen hwf h1 h118
    subst hfs
    have hidx : (Z - 1).toNat < rows.length := by omega
    have hmem : rows.getD (Z - 1).toNat "" ∈ rows := by
      rw [List.getD_eq_getElem rows "" hidx]
      exact List.getElem_mem hidx
    refine ⟨?_, (hwf _ hmem).1, (hwf _ hmem).2⟩
    unfold get_element_from_protons
    rw [if_neg (by omega)]
    exact if_neg (by omega)

/-- C5 witness: the theorem applied at the concrete 118-row table,
with `Z = 119` and `Z = 0` failing OutOfRange and `Z = 1` resolving
row 0. -/
theorem lookup_out_of_range_iff_witness :
    (get_element_from_protons (some exampleTable) 119 = .error .outOfRange ∧
     get_element_from_protons (some exampleTable) 0 = .error .outOfRange) ∧
    exampleTable.length = 118 ∧ wellFormedTable exampleTable ∧
    (get_element_from_protons (some exampleTable) 1 =
        .ok ((splitComma (exampleTable.getD ((1 : ℤ) - 1).toNat "")).getD 0 "",
             (splitComma (exampleTable.getD ((1 : ℤ) - 1).toNat "")).getD 1 "") ∧
     (splitComma (exampleTable.getD ((1 : ℤ) - 1).toNat "")).getD 0 "" ≠ "" ∧
     (splitComma (exampleTable.getD ((1 : ℤ) - 1).toNat "")).getD 1 "" ≠ "") :=
  ⟨⟨(lookup_out_of_range_iff (some exampleTable) 119).1.mpr (by decide),
    (lookup_out_of_range_iff (some exampleTable) 0).1.mpr (by decide)⟩,
   by decide, by decide,
   (lookup_out_of_range_iff (some exampleTable) 1).2 exampleTable rfl (by decide)
     (by decide) (by decide) (by decide)⟩

/-- C7 amended: every Isotope successfully returned by `from_nucleons`
satisfies `A = Z + N` and `1 ≤ Z ≤ 118` (via the catalog lookup); the
code enforces neither `A > 0` nor `N ≥ 0`.  Immutability holds
trivially: `get_upper_isobar` builds a new Isotope and no operation
writes to an existing one. -/
theorem from_nucleons_weak_invariant (fs : Option (List String)) (A Z : ℤ)
    (iso : Isotope) (h : from_nucleons fs A Z = some iso) :
    iso.A = iso.Z + iso.N ∧ 1 ≤ iso.Z ∧ iso.Z ≤ 118 := by
  obtain ⟨ie, is, iA, iZ, iN⟩ := iso
  unfold from_nucleons at h
  rcases hE : get_element_from_protons fs Z with err | ⟨e, s⟩ <;> rw [hE] at h
  · simp at h
  · simp at h
    obtain ⟨he, hs, hA, hZ, hN⟩ := h
    obtain ⟨h1, h2⟩ := get_element_ok_range fs Z (e, s) hE
    exact ⟨show iA = iZ + iN by omega, show (1 : ℤ) ≤ iZ by omega,
      show iZ ≤ (118 : ℤ) by omega⟩

/-- C7 amended claim witness: the theorem applied at `from_nucleons(4, 2)`. -/
theorem from_nucleons_weak_invariant_witness :
    from_nucleons (some exampleTable) 4 2 = some ⟨"El", "Sy", 4, 2, 2⟩ ∧
    ((4 : ℤ) = 2 + 2 ∧ (1 : ℤ) ≤ 2 ∧ (2 : ℤ) ≤ 118) :=
  ⟨by decide,
   from_nucleons_weak_invariant (some exampleTable) 4 2 ⟨"El", "Sy", 4, 2, 2⟩ (by decide)⟩

/-- C8: whenever `get_upper_isobar` succeeds on an Isotope satisfying
the constructor's `A = Z + N` relationship, the new Isotope has the
same `A`, atomic number exactly `Z + 1` and neutron number exactly
`N - 1`; the receiver is untouched (the transform allocates a fresh
Isotope). -/
theorem upper_isobar_same_A_succ_Z_pred_N (fs : Option (List String))
    (iso iso' : Isotope) (hinv : iso.A = iso.Z + iso.N)
    (h : get_upper_isobar fs iso = some iso') :
    iso'.A = iso.A ∧ iso'.Z = iso.Z + 1 ∧ iso'.N = iso.N - 1 := by
  obtain ⟨ie, is, iA, iZ, iN⟩ := iso'
  unfold get_upper_isobar from_nucleons at h
  rcases hE : get_element_from_protons fs (iso.Z + 1) with err | ⟨e, s⟩ <;> rw [hE] at h
  · simp at h
  · simp at h
    obtain ⟨he, hs, hA, hZ, hN⟩ := h
    exact ⟨show iA = iso.A by omega, show iZ = iso.Z + 1 by omega,
      show iN = iso.N - 1 by omega⟩

/-- C8 witness: the theorem applied to helium-4 (`A = 4, Z = 2, N = 2`),
whose upper isobar is `(A = 4, Z = 3, N = 1)`. -/
theorem upper_isobar_same_A_succ_Z_pred_N_witness :
    (4 : ℤ) = 2 + 2 ∧
    get_upper_isobar (some exampleTable) ⟨"El", "Sy", 4, 2, 2⟩ = some ⟨"El", "Sy", 4, 3, 1⟩ ∧
    ((4 : ℤ) = 4 ∧ (3 : ℤ) = 2 + 1 ∧ (1 : ℤ) = 2 - 1) :=
  ⟨by decide, by decide,
   upper_isobar_same_A_succ_Z_pred_N (some exampleTable) ⟨"El", "Sy", 4, 2, 2⟩
     ⟨"El", "Sy", 4, 3, 1⟩ (by decide) (by decide)⟩

/-- C10: `get_upper_isobar` is definitionally `from_nucleons(A, Z+1)`;
it re-resolves element name and symbol from the catalog row for `Z + 1`
(index `Z + 1 - 1` of the table) rather than copying them from the
receiver, and when `Z + 1 > 118` it reaches the lookup-failure path
(which in the code is the `todo!()` panic, not a permissive return). -/
theorem upper_isobar_eq_from_nucleons (fs : Option (List String)) (iso : Isotope) :
    get_upper_isobar fs iso = from_nucleons fs iso.A (iso.Z + 1) ∧
    (118 < iso.Z + 1 → get_upper_isobar fs iso = none) ∧
    (∀ rows iso', fs = some rows → get_upper_isobar fs iso = some iso' →
      iso'.element = (splitComma (rows.getD (iso.Z + 1 - 1).toNat "")).getD 0 "" ∧
      iso'.symbol = (splitComma (rows.getD (iso.Z + 1 - 1).toNat "")).getD 1 "") := by
  refine ⟨rfl, ?_, ?_⟩
  · intro hZ
    unfold get_upper_isobar from_nucleons
    have hoor : get_element_from_protons fs (iso.Z + 1) = .error .outOfRange := by
      unfold get_element_from_protons
      rw [if_pos (Or.inr hZ)]
    rw [hoor]
  · intro rows iso' hfs h
    subst hfs
    obtain ⟨ie, is, iA, iZ, iN⟩ := iso'
    unfold get_upper_isobar from_nucleons at h
    rcases hE : get_element_from_protons (some rows) (iso.Z + 1) with err | ⟨e, s⟩ <;>
      rw [hE] at h
    · simp at h
    · simp at h
      obtain ⟨he, hs, hA, hZ, hN⟩ := h
      obtain ⟨hf1, hf2⟩ := get_element_ok_fields rows (iso.Z + 1) e s hE
      exact ⟨by rw [← he, hf1], by rw [← hs, hf2]⟩

/-- C10 witness: the theorem applied with `Z = 118` (failure path
reached for `Z + 1 = 119`) and with `Z = 5` (name and symbol freshly
resolved from table row `5 + 1 - 1`, not copied from the receiver's
fields `"XX"/"YY"`). -/
theorem upper_isobar_eq_from_nucleons_witness :
    (118 < (118 : ℤ) + 1 ∧
     get_upper_isobar (some exampleTable) ⟨"El", "Sy", 200, 118, 82⟩ = none) ∧
    ((⟨"El", "Sy", 10, 6, 4⟩ : Isotope).element =
        (splitComma (exampleTable.getD ((5 : ℤ) + 1 - 1).toNat "")).getD 0 "" ∧
     (⟨"El", "Sy", 10, 6, 4⟩ : Isotope).symbol =
        (splitComma (exampleTable.getD ((5 : ℤ) + 1 - 1).toNat "")).getD 1 "") :=
  ⟨⟨by decide,
    (upper_isobar_eq_from_nucleons (some exampleTable) ⟨"El", "Sy", 200, 118, 82⟩).2.1
      (by decide)⟩,
   (upper_isobar_eq_from_nucleons (some exampleTable) ⟨"XX", "YY", 10, 5, 5⟩).2.2
     exampleTable ⟨"El", "Sy", 10, 6, 4⟩ rfl (by decide)⟩
